import Mathlib

/-!
Verification development for the `smtc_windows` plugin
(`src/packages/smtc_windows/rust/src/internal/smtc_internal.rs`).

The Rust module wraps the Windows System Media Transport Controls (SMTC):
a `SMTCInternal` handle owning a native `MediaPlayer`, update operations
pushing domain state to the OS, and event handlers bridging OS callbacks
onto stream sinks.

Embedding conventions:
- Every native call that can fail is driven by a `NativeEnv` oracle telling
  which getters and writes fail on this run.
- Each update operation returns a `RustResult Unit` (the `anyhow::Result`)
  together with the list of native write calls it attempted, in order.
- A Rust `.unwrap()` on a failed value is modelled as the `panicked` outcome.
- Native state is modelled by `NativeWorld`; `applyWrite` gives the effect of
  each attempted native write on that state.

Companion files of the crate (`config.rs`, `metadata.rs`, `timeline.rs`,
`playback_status.rs`) are not in the sources provided; their small value
types are modelled from the spec where noted.
-/

set_option autoImplicit false

/-- Windows `Media.MediaPlaybackType`; the source only ever writes `Music`. -/
inductive MediaPlaybackType where
  | unknown
  | music
  | video
  | image
deriving DecidableEq

/-- Windows `Media.MediaPlaybackAutoRepeatMode`, an open `i32` enum with the
three named values `None = 0`, `Track = 1`, `List = 2`.  Modelled as a wrapper
around `Int` because the native type is open: a callback may deliver an
unlisted value, which the source matches with a wildcard arm. -/
structure MediaPlaybackAutoRepeatMode where
  value : Int
deriving DecidableEq

def MediaPlaybackAutoRepeatMode.None : MediaPlaybackAutoRepeatMode := ⟨0⟩

def MediaPlaybackAutoRepeatMode.Track : MediaPlaybackAutoRepeatMode := ⟨1⟩

def MediaPlaybackAutoRepeatMode.List : MediaPlaybackAutoRepeatMode := ⟨2⟩

/-- Windows `SystemMediaTransportControlsButton`, an open `i32` enum.
The ten named values carry the codes of the Windows metadata. -/
structure SystemMediaTransportControlsButton where
  value : Int
deriving DecidableEq

def SystemMediaTransportControlsButton.Play : SystemMediaTransportControlsButton := ⟨0⟩

def SystemMediaTransportControlsButton.Pause : SystemMediaTransportControlsButton := ⟨1⟩

def SystemMediaTransportControlsButton.Stop : SystemMediaTransportControlsButton := ⟨2⟩

def SystemMediaTransportControlsButton.Record : SystemMediaTransportControlsButton := ⟨3⟩

def SystemMediaTransportControlsButton.FastForward : SystemMediaTransportControlsButton := ⟨4⟩

def SystemMediaTransportControlsButton.Rewind : SystemMediaTransportControlsButton := ⟨5⟩

def SystemMediaTransportControlsButton.Next : SystemMediaTransportControlsButton := ⟨6⟩

def SystemMediaTransportControlsButton.Previous : SystemMediaTransportControlsButton := ⟨7⟩

def SystemMediaTransportControlsButton.ChannelUp : SystemMediaTransportControlsButton := ⟨8⟩

def SystemMediaTransportControlsButton.ChannelDown : SystemMediaTransportControlsButton := ⟨9⟩

/-- Modelled from the spec: `playback_status.rs` is not under `src/`.
Domain enumeration with values Closed, Opened, Changing, Stopped, Playing,
Paused, mapped one-to-one onto the native status enumeration. -/
inductive PlaybackStatus where
  | closed
  | opened
  | changing
  | stopped
  | playing
  | paused
deriving DecidableEq

/-- Native `MediaPlaybackStatus` target of the one-to-one status mapping. -/
inductive NativeMediaPlaybackStatus where
  | closed
  | opened
  | changing
  | stopped
  | playing
  | paused
deriving DecidableEq

/-- Modelled from the spec: the one-to-one `Into` conversion implemented in
`playback_status.rs` (used by `update_playback_status` as `status.into()`). -/
def toNativeStatus : PlaybackStatus → NativeMediaPlaybackStatus
  | .closed => .closed
  | .opened => .opened
  | .changing => .changing
  | .stopped => .stopped
  | .playing => .playing
  | .paused => .paused

/-- Modelled from the spec: `config.rs` is not under `src/`.  CapabilityConfig
is seven booleans; the field names are the ones `update_config` reads. -/
structure SMTCConfig where
  play_enabled : Bool
  pause_enabled : Bool
  next_enabled : Bool
  prev_enabled : Bool
  fast_forward_enabled : Bool
  rewind_enabled : Bool
  stop_enabled : Bool
deriving DecidableEq

/-- Modelled from the spec: `metadata.rs` is not under `src/`.  MusicMetadata
is five optional strings; `thumbnail` is the thumbnail reference. -/
structure MusicMetadata where
  title : Option String
  artist : Option String
  album : Option String
  album_artist : Option String
  thumbnail : Option String
deriving DecidableEq

/-- Modelled from the spec: accessor returning the optional title.  The Rust
accessors return `Option`-wrapped `HSTRING` values; the `HSTRING` conversion
is modelled as the identity on strings. -/
def MusicMetadata.h_title (m : MusicMetadata) : Option String := m.title

/-- Modelled from the spec: accessor returning the optional artist. -/
def MusicMetadata.h_artist (m : MusicMetadata) : Option String := m.artist

/-- Modelled from the spec: accessor returning the optional album. -/
def MusicMetadata.h_album (m : MusicMetadata) : Option String := m.album

/-- Modelled from the spec: accessor returning the optional album artist. -/
def MusicMetadata.h_album_artist (m : MusicMetadata) : Option String := m.album_artist

/-- Modelled from the spec: accessor returning the optional thumbnail
reference string. -/
def MusicMetadata.h_thumbnail (m : MusicMetadata) : Option String := m.thumbnail

/-- Modelled from the spec: raw thumbnail reference string; the source only
consults it when the thumbnail is present, where it equals that reference. -/
def MusicMetadata.h_thumbnail_raw (m : MusicMetadata) : String :=
  match m.thumbnail with
  | some s => s
  | none => ""

/-- Modelled from the spec: `timeline.rs` is not under `src/`.
PlaybackTimeline per spec section 3; the rate and timestamp fields are carried
opaquely as integers (the conversion checks only the seek-range invariant). -/
structure PlaybackTimeline where
  position_ms : Int
  min_seek_ms : Int
  max_seek_ms : Int
  min_playback_rate : Int
  max_playback_rate : Int
  last_updated_timestamp : Int
deriving DecidableEq

/-- Native `SystemMediaTransportControlsTimelineProperties`, restricted to the
position and seek-range duration values that the conversion round-trips. -/
structure NativeTimeline where
  position : Int
  minSeekTime : Int
  maxSeekTime : Int
deriving DecidableEq

/-- A resolved thumbnail stream reference (`RandomAccessStreamReference`),
remembering which construction path produced it. -/
inductive ThumbSource where
  | fromUri (uri : String)
  | fromFile (path : String)
deriving DecidableEq

/-- Native write calls attempted by the update operations, in source order. -/
inductive WriteOp where
  | setIsPlayEnabled (b : Bool)
  | setIsPauseEnabled (b : Bool)
  | setIsNextEnabled (b : Bool)
  | setIsPreviousEnabled (b : Bool)
  | setIsFastForwardEnabled (b : Bool)
  | setIsRewindEnabled (b : Bool)
  | setIsStopEnabled (b : Bool)
  | clearAll
  | setAppMediaId (s : String)
  | setType (t : MediaPlaybackType)
  | setArtist (s : String)
  | setAlbumTitle (s : String)
  | setTitle (s : String)
  | setAlbumArtist (s : String)
  | setThumbnail (t : Option ThumbSource)
  | displayUpdate
  | updateTimelineProperties (tp : NativeTimeline)
  | setPlaybackStatus (s : NativeMediaPlaybackStatus)
  | setShuffleEnabled (b : Bool)
  | setAutoRepeatMode (m : MediaPlaybackAutoRepeatMode)
  | setIsEnabled (b : Bool)
  | registerButtonPressed
  | registerPlaybackPositionChangeRequested
  | registerShuffleEnabledChangeRequested
  | registerAutoRepeatModeChangeRequested
deriving DecidableEq

/-- Native getter calls that can fail before any write is attempted. -/
inductive NativeGetter where
  | systemMediaTransportControls
  | displayUpdater
  | musicProperties
deriving DecidableEq

/-- Errors surfaced by the embedded operations (`anyhow::Error` values). -/
inductive SmtcError where
  | getterFail (g : NativeGetter)
  | writeFail (w : WriteOp)
  | timelineInvariant
deriving DecidableEq

/-- Outcome of a Rust call: `ok`, a propagated error, or a panic
(an `.unwrap()` of a failed value). -/
inductive RustResult (α : Type) where
  | ok (a : α)
  | error (e : SmtcError)
  | panicked
deriving DecidableEq

/-- Failure oracle for one run of native calls. -/
structure NativeEnv where
  smtcFails : Bool
  displayUpdaterFails : Bool
  musicPropertiesFails : Bool
  writeFails : WriteOp → Bool
  createUriFails : String → Bool
  createFromUriFails : String → Bool
  getFileFails : String → Bool
  createFromFileFails : String → Bool

/-- Runs a sequence of `?`-propagated native writes: stops at the first
failing write, reporting it; the trace lists the attempted writes. -/
def runWrites (env : NativeEnv) : List WriteOp → RustResult Unit × List WriteOp
  | [] => (.ok (), [])
  | w :: ws =>
    if env.writeFails w then (.error (.writeFail w), [w])
    else
      match runWrites env ws with
      | (r, t) => (r, w :: t)

/-- Writes produced by an optional field: the source applies the setter inside
`Option::map`, so a present field gives one attempted write and an absent one
gives none (the setter result is discarded either way). -/
def optFieldWrite (f : Option String) (mk : String → WriteOp) : List WriteOp :=
  match f with
  | some s => [mk s]
  | none => []

/-- `SMTCInternal::update_config` (smtc_internal.rs lines 37-50): fetches the
transport controls, then performs the seven capability writes in order, each
propagated with the question-mark operator. -/
def configWrites (c : SMTCConfig) : List WriteOp :=
  [WriteOp.setIsPlayEnabled c.play_enabled,
   WriteOp.setIsPauseEnabled c.pause_enabled,
   WriteOp.setIsNextEnabled c.next_enabled,
   WriteOp.setIsPreviousEnabled c.prev_enabled,
   WriteOp.setIsFastForwardEnabled c.fast_forward_enabled,
   WriteOp.setIsRewindEnabled c.rewind_enabled,
   WriteOp.setIsStopEnabled c.stop_enabled]

def update_config (env : NativeEnv) (c : SMTCConfig) : RustResult Unit × List WriteOp :=
  if env.smtcFails then (.error (.getterFail .systemMediaTransportControls), [])
  else runWrites env (configWrites c)

/-- The Rust test `starts_with("http")` on the raw thumbnail reference
(line 81), as a character-level prefix check. -/
def strStartsWithHttp (s : String) : Bool :=
  match s.data with
  | 'h' :: 't' :: 't' :: 'p' :: _ => true
  | _ => false

/-- Thumbnail resolution inside `update_metadata` (lines 80-97).  For a
present reference beginning with `http` the source calls
`Uri::CreateUri(..).unwrap()` and then
`RandomAccessStreamReference::CreateFromUri(..).unwrap()`: a failure of either
native constructor is a panic, not a `None`.  For any other present reference
it performs the blocking file lookup `get_storage_file_sync`; a lookup failure
yields `None`, while a failure of `CreateFromFile(..).unwrap()` panics. -/
def resolveThumbnail (env : NativeEnv) (meta : MusicMetadata) :
    RustResult (Option ThumbSource) :=
  match meta.h_thumbnail with
  | none => .ok none
  | some s =>
    if strStartsWithHttp meta.h_thumbnail_raw then
      if env.createUriFails s then .panicked
      else if env.createFromUriFails s then .panicked
      else .ok (some (ThumbSource.fromUri s))
    else
      if env.getFileFails s then .ok none
      else if env.createFromFileFails s then .panicked
      else .ok (some (ThumbSource.fromFile s))

/-- `SMTCInternal::update_metadata` (lines 52-107).  Order of native calls:
`SystemMediaTransportControls`, `DisplayUpdater`, `ClearAll?`,
`app_id.map(SetAppMediaId)` (result discarded), `SetType(Music)?`,
`MusicProperties?`, the four optional field setters inside `Option::map`
(results discarded), thumbnail resolution, `SetThumbnail?`, `Update?`. -/
def update_metadata (env : NativeEnv) (meta : MusicMetadata) (app_id : Option String) :
    RustResult Unit × List WriteOp :=
  if env.smtcFails then (.error (.getterFail .systemMediaTransportControls), [])
  else if env.displayUpdaterFails then (.error (.getterFail .displayUpdater), [])
  else if env.writeFails WriteOp.clearAll then
    (.error (.writeFail WriteOp.clearAll), [WriteOp.clearAll])
  else
    let appW := optFieldWrite app_id WriteOp.setAppMediaId
    if env.writeFails (WriteOp.setType MediaPlaybackType.music) then
      (.error (.writeFail (WriteOp.setType MediaPlaybackType.music)),
        WriteOp.clearAll :: (appW ++ [WriteOp.setType MediaPlaybackType.music]))
    else if env.musicPropertiesFails then
      (.error (.getterFail .musicProperties),
        WriteOp.clearAll :: (appW ++ [WriteOp.setType MediaPlaybackType.music]))
    else
      let fieldW := optFieldWrite meta.h_artist WriteOp.setArtist
        ++ optFieldWrite meta.h_album WriteOp.setAlbumTitle
        ++ optFieldWrite meta.h_title WriteOp.setTitle
        ++ optFieldWrite meta.h_album_artist WriteOp.setAlbumArtist
      match resolveThumbnail env meta with
      | .panicked =>
        (.panicked,
          WriteOp.clearAll :: (appW ++ [WriteOp.setType MediaPlaybackType.music] ++ fieldW))
      | .error e =>
        (.error e,
          WriteOp.clearAll :: (appW ++ [WriteOp.setType MediaPlaybackType.music] ++ fieldW))
      | .ok thumb =>
        if env.writeFails (WriteOp.setThumbnail thumb) then
          (.error (.writeFail (WriteOp.setThumbnail thumb)),
            WriteOp.clearAll :: (appW ++ [WriteOp.setType MediaPlaybackType.music] ++ fieldW
              ++ [WriteOp.setThumbnail thumb]))
        else if env.writeFails WriteOp.displayUpdate then
          (.error (.writeFail WriteOp.displayUpdate),
            WriteOp.clearAll :: (appW ++ [WriteOp.setType MediaPlaybackType.music] ++ fieldW
              ++ [WriteOp.setThumbnail thumb, WriteOp.displayUpdate]))
        else
          (.ok (),
            WriteOp.clearAll :: (appW ++ [WriteOp.setType MediaPlaybackType.music] ++ fieldW
              ++ [WriteOp.setThumbnail thumb, WriteOp.displayUpdate]))

/-- `SMTCInternal::clear_metadata` (lines 109-119). -/
def clear_metadata (env : NativeEnv) : RustResult Unit × List WriteOp :=
  if env.smtcFails then (.error (.getterFail .systemMediaTransportControls), [])
  else if env.displayUpdaterFails then (.error (.getterFail .displayUpdater), [])
  else runWrites env [WriteOp.clearAll, WriteOp.displayUpdate]

/-- Modelled from the spec: the `Into` conversion implemented in `timeline.rs`
(used by `update_timeline` as `timeline.into()`).  Succeeds exactly when
`min_seek_ms ≤ position_ms ≤ max_seek_ms`, round-tripping the position and
seek-range values unchanged; fails otherwise, with no clamping. -/
def toNativeTimeline (t : PlaybackTimeline) : Except SmtcError NativeTimeline :=
  if t.min_seek_ms ≤ t.position_ms ∧ t.position_ms ≤ t.max_seek_ms then
    .ok { position := t.position_ms, minSeekTime := t.min_seek_ms,
          maxSeekTime := t.max_seek_ms }
  else .error SmtcError.timelineInvariant

/-- `SMTCInternal::update_timeline` (lines 121-130): converts, propagates a
conversion error with the question-mark operator, then commits. -/
def update_timeline (env : NativeEnv) (t : PlaybackTimeline) :
    RustResult Unit × List WriteOp :=
  if env.smtcFails then (.error (.getterFail .systemMediaTransportControls), [])
  else
    match toNativeTimeline t with
    | .error e => (.error e, [])
    | .ok tp => runWrites env [WriteOp.updateTimelineProperties tp]

/-- `SMTCInternal::update_playback_status` (lines 132-138). -/
def update_playback_status (env : NativeEnv) (s : PlaybackStatus) :
    RustResult Unit × List WriteOp :=
  if env.smtcFails then (.error (.getterFail .systemMediaTransportControls), [])
  else runWrites env [WriteOp.setPlaybackStatus (toNativeStatus s)]

/-- `SMTCInternal::update_shuffle` (lines 140-145). -/
def update_shuffle (env : NativeEnv) (b : Bool) : RustResult Unit × List WriteOp :=
  if env.smtcFails then (.error (.getterFail .systemMediaTransportControls), [])
  else runWrites env [WriteOp.setShuffleEnabled b]

/-- The repeat-mode string mapping of `update_repeat_mode` (lines 151-156):
the three recognized literals map to the three named native values and every
other string falls to the wildcard arm, which also selects `None`. -/
def repeatModeOf (s : String) : MediaPlaybackAutoRepeatMode :=
  if s = "none" then MediaPlaybackAutoRepeatMode.None
  else if s = "track" then MediaPlaybackAutoRepeatMode.Track
  else if s = "list" then MediaPlaybackAutoRepeatMode.List
  else MediaPlaybackAutoRepeatMode.None

/-- `SMTCInternal::update_repeat_mode` (lines 147-159): every match arm
performs the same `SetAutoRepeatMode` write on the mapped value. -/
def update_repeat_mode (env : NativeEnv) (s : String) : RustResult Unit × List WriteOp :=
  if env.smtcFails then (.error (.getterFail .systemMediaTransportControls), [])
  else runWrites env [WriteOp.setAutoRepeatMode (repeatModeOf s)]

/-- `SMTCInternal::enable_smtc` (lines 161-166). -/
def enable_smtc (env : NativeEnv) : RustResult Unit × List WriteOp :=
  if env.smtcFails then (.error (.getterFail .systemMediaTransportControls), [])
  else runWrites env [WriteOp.setIsEnabled true]

/-- `SMTCInternal::disable_smtc` (lines 168-173). -/
def disable_smtc (env : NativeEnv) : RustResult Unit × List WriteOp :=
  if env.smtcFails then (.error (.getterFail .systemMediaTransportControls), [])
  else runWrites env [WriteOp.setIsEnabled false]

/-- Registration half of `SMTCInternal::button_press_event` (lines 175-224). -/
def button_press_event (env : NativeEnv) : RustResult Unit × List WriteOp :=
  if env.smtcFails then (.error (.getterFail .systemMediaTransportControls), [])
  else runWrites env [WriteOp.registerButtonPressed]

/-- Registration half of `SMTCInternal::position_change_request_event`
(lines 226-248). -/
def position_change_request_event (env : NativeEnv) : RustResult Unit × List WriteOp :=
  if env.smtcFails then (.error (.getterFail .systemMediaTransportControls), [])
  else runWrites env [WriteOp.registerPlaybackPositionChangeRequested]

/-- Registration half of `SMTCInternal::shuffle_request_event`
(lines 250-267). -/
def shuffle_request_event (env : NativeEnv) : RustResult Unit × List WriteOp :=
  if env.smtcFails then (.error (.getterFail .systemMediaTransportControls), [])
  else runWrites env [WriteOp.registerShuffleEnabledChangeRequested]

/-- Registration half of `SMTCInternal::repeat_mode_request_event`
(lines 269-301). -/
def repeat_mode_request_event (env : NativeEnv) : RustResult Unit × List WriteOp :=
  if env.smtcFails then (.error (.getterFail .systemMediaTransportControls), [])
  else runWrites env [WriteOp.registerAutoRepeatModeChangeRequested]

/-- The display metadata the native side holds (updater staging area). -/
structure DisplayState where
  appMediaId : Option String
  mediaType : Option MediaPlaybackType
  artist : Option String
  album : Option String
  title : Option String
  albumArtist : Option String
  thumbnail : Option ThumbSource
deriving DecidableEq

/-- The fully cleared display state produced by `ClearAll`. -/
def emptyDisplay : DisplayState :=
  { appMediaId := none, mediaType := none, artist := none, album := none,
    title := none, albumArtist := none, thumbnail := none }

/-- State of the native session object reachable through the handle: the seven
capability flags, the display updater staging area and the published display
(separated because `Update` publishes the staging area), and the remaining
session properties.  `registrations` records installed event handlers. -/
structure NativeWorld where
  playEnabled : Bool
  pauseEnabled : Bool
  nextEnabled : Bool
  prevEnabled : Bool
  fastForwardEnabled : Bool
  rewindEnabled : Bool
  stopEnabled : Bool
  staging : DisplayState
  published : DisplayState
  timelineProps : Option NativeTimeline
  playbackStatus : Option NativeMediaPlaybackStatus
  shuffleEnabled : Option Bool
  autoRepeatMode : Option MediaPlaybackAutoRepeatMode
  smtcEnabled : Bool
  registrations : List WriteOp
deriving DecidableEq

/-- Effect of one attempted native write on the native session state. -/
def applyWrite (w : NativeWorld) : WriteOp → NativeWorld
  | .setIsPlayEnabled b => { w with playEnabled := b }
  | .setIsPauseEnabled b => { w with pauseEnabled := b }
  | .setIsNextEnabled b => { w with nextEnabled := b }
  | .setIsPreviousEnabled b => { w with prevEnabled := b }
  | .setIsFastForwardEnabled b => { w with fastForwardEnabled := b }
  | .setIsRewindEnabled b => { w with rewindEnabled := b }
  | .setIsStopEnabled b => { w with stopEnabled := b }
  | .clearAll => { w with staging := emptyDisplay }
  | .setAppMediaId s => { w with staging := { w.staging with appMediaId := some s } }
  | .setType t => { w with staging := { w.staging with mediaType := some t } }
  | .setArtist s => { w with staging := { w.staging with artist := some s } }
  | .setAlbumTitle s => { w with staging := { w.staging with album := some s } }
  | .setTitle s => { w with staging := { w.staging with title := some s } }
  | .setAlbumArtist s => { w with staging := { w.staging with albumArtist := some s } }
  | .setThumbnail t => { w with staging := { w.staging with thumbnail := t } }
  | .displayUpdate => { w with published := w.staging }
  | .updateTimelineProperties tp => { w with timelineProps := some tp }
  | .setPlaybackStatus s => { w with playbackStatus := some s }
  | .setShuffleEnabled b => { w with shuffleEnabled := some b }
  | .setAutoRepeatMode m => { w with autoRepeatMode := some m }
  | .setIsEnabled b => { w with smtcEnabled := b }
  | .registerButtonPressed =>
    { w with registrations := w.registrations ++ [WriteOp.registerButtonPressed] }
  | .registerPlaybackPositionChangeRequested =>
    { w with registrations :=
        w.registrations ++ [WriteOp.registerPlaybackPositionChangeRequested] }
  | .registerShuffleEnabledChangeRequested =>
    { w with registrations :=
        w.registrations ++ [WriteOp.registerShuffleEnabledChangeRequested] }
  | .registerAutoRepeatModeChangeRequested =>
    { w with registrations :=
        w.registrations ++ [WriteOp.registerAutoRepeatModeChangeRequested] }

/-- Effect of a trace of attempted native writes, first to last. -/
def applyWrites (w : NativeWorld) (ws : List WriteOp) : NativeWorld :=
  ws.foldl applyWrite w

/-- The owned native `MediaPlayer` object, identified by its handle. -/
structure MediaPlayer where
  handleId : Nat
deriving DecidableEq

/-- `SMTCInternal` (smtc_internal.rs lines 20-23): the session handle owning
the boxed native media player. -/
structure SMTCInternal where
  media_player : MediaPlayer
deriving DecidableEq

/-- The thirteen methods `impl SMTCInternal` exposes on `&self`
(lines 25-173 and the four event registrations). -/
inductive Operation where
  | updateConfig (c : SMTCConfig)
  | updateMetadata (m : MusicMetadata) (app_id : Option String)
  | clearMetadata
  | updateTimeline (t : PlaybackTimeline)
  | updatePlaybackStatus (s : PlaybackStatus)
  | updateShuffle (b : Bool)
  | updateRepeatMode (s : String)
  | enableSmtc
  | disableSmtc
  | buttonPressEvent
  | positionChangeRequestEvent
  | shuffleRequestEvent
  | repeatModeRequestEvent

/-- Dispatch of an operation to its embedded method body. -/
def runOperation (env : NativeEnv) : Operation → RustResult Unit × List WriteOp
  | .updateConfig c => update_config env c
  | .updateMetadata m a => update_metadata env m a
  | .clearMetadata => clear_metadata env
  | .updateTimeline t => update_timeline env t
  | .updatePlaybackStatus s => update_playback_status env s
  | .updateShuffle b => update_shuffle env b
  | .updateRepeatMode s => update_repeat_mode env s
  | .enableSmtc => enable_smtc env
  | .disableSmtc => disable_smtc env
  | .buttonPressEvent => button_press_event env
  | .positionChangeRequestEvent => position_change_request_event env
  | .shuffleRequestEvent => shuffle_request_event env
  | .repeatModeRequestEvent => repeat_mode_request_event env

/-- Combined program state: the Rust-side handle plus the native session
state it points at. -/
structure ProcState where
  smtc_internal : SMTCInternal
  world : NativeWorld
deriving DecidableEq

/-- One method call on the handle.  All thirteen methods take `&self` (a
shared borrow), so the Rust side of the state is passed through unchanged;
the native side advances by the attempted writes. -/
def stepOperation (env : NativeEnv) (op : Operation) (st : ProcState) :
    ProcState × RustResult Unit :=
  ({ st with world := applyWrites st.world (runOperation env op).2 },
   (runOperation env op).1)

/-- Native args of the `ButtonPressed` callback.  The `button` field models
the `Button()` property read: `none` is a failed native read. -/
structure SystemMediaTransportControlsButtonPressedEventArgs where
  button : Option SystemMediaTransportControlsButton
deriving DecidableEq

/-- Windows `Foundation.TimeSpan` as delivered by
`RequestedPlaybackPosition()`.  Modelled from the spec: the spec treats the
carried `Duration` integer as the requested position in milliseconds. -/
structure TimeSpan where
  Duration : Int
deriving DecidableEq

/-- Native args of the `PlaybackPositionChangeRequested` callback; `none`
models a failed `RequestedPlaybackPosition()` read. -/
structure PlaybackPositionChangeRequestedEventArgs where
  requestedPlaybackPosition : Option TimeSpan
deriving DecidableEq

/-- Native args of the `ShuffleEnabledChangeRequested` callback; `none`
models a failed `RequestedShuffleEnabled()` read. -/
structure ShuffleEnabledChangeRequestedEventArgs where
  requestedShuffleEnabled : Option Bool
deriving DecidableEq

/-- Native args of the `AutoRepeatModeChangeRequested` callback; `none`
models a failed `RequestedAutoRepeatMode()` read. -/
structure AutoRepeatModeChangeRequestedEventArgs where
  requestedAutoRepeatMode : Option MediaPlaybackAutoRepeatMode
deriving DecidableEq

/-- The button-to-token mapping of the handler match (lines 180-214), arm by
arm; the wildcard arm gives no token. -/
def buttonToken (b : SystemMediaTransportControlsButton) : Option String :=
  if b = SystemMediaTransportControlsButton.Play then some ("play")
  else if b = SystemMediaTransportControlsButton.Pause then some ("pause")
  else if b = SystemMediaTransportControlsButton.Next then some ("next")
  else if b = SystemMediaTransportControlsButton.Previous then some ("previous")
  else if b = SystemMediaTransportControlsButton.FastForward then some ("fast_forward")
  else if b = SystemMediaTransportControlsButton.Rewind then some ("rewind")
  else if b = SystemMediaTransportControlsButton.Stop then some ("stop")
  else if b = SystemMediaTransportControlsButton.Record then some ("record")
  else if b = SystemMediaTransportControlsButton.ChannelUp then some ("channel_up")
  else if b = SystemMediaTransportControlsButton.ChannelDown then some ("channel_down")
  else none

/-- The closure installed by `button_press_event` (lines 176-219).  The source
runs `args.as_ref().unwrap().Button().unwrap()`: a missing args reference or a
failed `Button()` read panics before any emission; otherwise the match emits
the mapped token, or nothing on the wildcard arm, and the closure returns
`Ok(())`.  The second component is the list of values pushed on the sink. -/
def button_press_handler
    (args : Option SystemMediaTransportControlsButtonPressedEventArgs) :
    RustResult Unit × List String :=
  match args with
  | none => (.panicked, [])
  | some a =>
    match a.button with
    | none => (.panicked, [])
    | some b =>
      match buttonToken b with
      | some tok => (.ok (), [tok])
      | none => (.ok (), [])

/-- The closure installed by `position_change_request_event` (lines 229-240):
`args.as_ref().unwrap().RequestedPlaybackPosition().unwrap().Duration` is
pushed on the sink; a missing args reference or failed read panics. -/
def position_change_handler
    (args : Option PlaybackPositionChangeRequestedEventArgs) :
    RustResult Unit × List Int :=
  match args with
  | none => (.panicked, [])
  | some a =>
    match a.requestedPlaybackPosition with
    | none => (.panicked, [])
    | some ts => (.ok (), [ts.Duration])

/-- The closure installed by `shuffle_request_event` (lines 253-261). -/
def shuffle_request_handler
    (args : Option ShuffleEnabledChangeRequestedEventArgs) :
    RustResult Unit × List Bool :=
  match args with
  | none => (.panicked, [])
  | some a =>
    match a.requestedShuffleEnabled with
    | none => (.panicked, [])
    | some b => (.ok (), [b])

/-- The repeat-mode-to-token mapping of the handler match (lines 276-289):
the three named native values map to their literals and the wildcard arm
also emits the token for `None`. -/
def repeatModeToken (m : MediaPlaybackAutoRepeatMode) : String :=
  if m = MediaPlaybackAutoRepeatMode.None then "none"
  else if m = MediaPlaybackAutoRepeatMode.Track then "track"
  else if m = MediaPlaybackAutoRepeatMode.List then "list"
  else "none"

/-- The closure installed by `repeat_mode_request_event` (lines 272-294). -/
def repeat_mode_request_handler
    (args : Option AutoRepeatModeChangeRequestedEventArgs) :
    RustResult Unit × List String :=
  match args with
  | none => (.panicked, [])
  | some a =>
    match a.requestedAutoRepeatMode with
    | none => (.panicked, [])
    | some m => (.ok (), [repeatModeToken m])

/-- Environment in which every native call succeeds. -/
def allOkEnv : NativeEnv :=
  { smtcFails := false, displayUpdaterFails := false, musicPropertiesFails := false,
    writeFails := fun _ => false, createUriFails := fun _ => false,
    createFromUriFails := fun _ => false, getFileFails := fun _ => false,
    createFromFileFails := fun _ => false }

/-- A concrete initial native session state. -/
def world0 : NativeWorld :=
  { playEnabled := false, pauseEnabled := false, nextEnabled := false,
    prevEnabled := false, fastForwardEnabled := false, rewindEnabled := false,
    stopEnabled := false, staging := emptyDisplay, published := emptyDisplay,
    timelineProps := none, playbackStatus := none, shuffleEnabled := none,
    autoRepeatMode := none, smtcEnabled := true, registrations := [] }

/-- A `?`-propagated write sequence with no failing write succeeds and
attempts exactly the listed writes. -/
theorem runWrites_ok (env : NativeEnv) (ws : List WriteOp)
    (h : ∀ w ∈ ws, env.writeFails w = false) :
    runWrites env ws = (.ok (), ws) := by
  induction ws with
  | nil => rfl
  | cons w ws ih =>
    have hw : env.writeFails w = false := h w (List.mem_cons_self w ws)
    have hrest := ih (fun x hx => h x (List.mem_cons_of_mem w hx))
    simp [runWrites, hw, hrest]

/-- A `?`-propagated write sequence stops at its first failing write: the
error names that write and nothing after it is attempted. -/
theorem runWrites_firstFail (env : NativeEnv) (w : WriteOp) (post : List WriteOp)
    (pre : List WriteOp) (hpre : ∀ x ∈ pre, env.writeFails x = false)
    (hw : env.writeFails w = true) :
    runWrites env (pre ++ w :: post) = (.error (.writeFail w), pre ++ [w]) := by
  induction pre with
  | nil => simp [runWrites, hw]
  | cons x xs ih =>
    have hx : env.writeFails x = false := hpre x (List.mem_cons_self x xs)
    have hrest := ih (fun y hy => hpre y (List.mem_cons_of_mem x hy))
    simp [runWrites, hx, hrest]

/-- Claim C1 counterexample: each of the four installed Event Bridge handlers
panics (an uncaught `unwrap`) when the native args reference is absent,
instead of catching the failure and returning a successful no-op
acknowledgment to the OS. -/
theorem c1_counterexample :
    button_press_handler none = (.panicked, []) ∧
    position_change_handler none = (.panicked, []) ∧
    shuffle_request_handler none = (.panicked, []) ∧
    repeat_mode_request_handler none = (.panicked, []) :=
  ⟨rfl, rfl, rfl, rfl⟩

/-- Claim C1 (amended): for every Event Bridge handler invocation whose args
reference is present and whose native property read succeeds, the handler
returns a successful acknowledgment to the OS and never errors; but a
null/absent args reference, or a failing native property read, makes the
handler panic through an uncaught `unwrap` rather than being converted to a
successful no-op acknowledgment. -/
theorem c1_amended (b : SystemMediaTransportControlsButton) (ts : TimeSpan)
    (sh : Bool) (m : MediaPlaybackAutoRepeatMode) :
    (button_press_handler (some ⟨some b⟩)).1 = .ok () ∧
    (position_change_handler (some ⟨some ts⟩)).1 = .ok () ∧
    (shuffle_request_handler (some ⟨some sh⟩)).1 = .ok () ∧
    (repeat_mode_request_handler (some ⟨some m⟩)).1 = .ok () ∧
    button_press_handler none = (.panicked, []) ∧
    position_change_handler none = (.panicked, []) ∧
    shuffle_request_handler none = (.panicked, []) ∧
    repeat_mode_request_handler none = (.panicked, []) ∧
    button_press_handler (some ⟨none⟩) = (.panicked, []) ∧
    position_change_handler (some ⟨none⟩) = (.panicked, []) ∧
    shuffle_request_handler (some ⟨none⟩) = (.panicked, []) ∧
    repeat_mode_request_handler (some ⟨none⟩) = (.panicked, []) := by
  refine ⟨?_, rfl, rfl, rfl, rfl, rfl, rfl, rfl, rfl, rfl, rfl, rfl⟩
  cases h : buttonToken b <;> simp [button_press_handler, h]

/-- Claim C3: for every delivered position-change request (args present, read
succeeding), the handler emits exactly one item on its sink, namely the
`Duration` integer of the requested playback position, which the spec
identifies as the requested position in milliseconds. -/
theorem c3_position_change_emits (ts : TimeSpan) :
    position_change_handler (some ⟨some ts⟩) = (.ok (), [ts.Duration]) := rfl

/-- Claim C10: every `SMTCInternal` method (the nine update operations and the
four event registrations) takes the handle by shared reference and leaves the
Rust-side value unchanged: after any method call, in any environment and from
any state, the `SMTCInternal` component and its owned `media_player` handle
are the same as before, whether the call returns `Ok` or an error. -/
theorem c10_frame_effect (env : NativeEnv) (op : Operation) (st : ProcState) :
    ((stepOperation env op st).1).smtc_internal = st.smtc_internal ∧
    ((stepOperation env op st).1).smtc_internal.media_player
      = st.smtc_internal.media_player :=
  ⟨rfl, rfl⟩

/-- Claim C6: `update_repeat_mode` maps the literal strings to the native
modes per table, maps every other string (including the empty string,
`shuffle`, and `TRACK`) to the native `None` mode, and behaves on an
unrecognized string exactly as it behaves on the literal `none` — so it never
returns an error on account of an unrecognized input string. -/
theorem c6_repeat_mode_mapping (env : NativeEnv) (s : String)
    (h2 : s ≠ "track") (h3 : s ≠ "list") :
    repeatModeOf s = MediaPlaybackAutoRepeatMode.None ∧
    update_repeat_mode env s = update_repeat_mode env ("none") ∧
    repeatModeOf ("none") = MediaPlaybackAutoRepeatMode.None ∧
    repeatModeOf ("track") = MediaPlaybackAutoRepeatMode.Track ∧
    repeatModeOf ("list") = MediaPlaybackAutoRepeatMode.List ∧
    repeatModeOf ("") = MediaPlaybackAutoRepeatMode.None ∧
    repeatModeOf ("shuffle") = MediaPlaybackAutoRepeatMode.None ∧
    repeatModeOf ("TRACK") = MediaPlaybackAutoRepeatMode.None := by
  have hmode : repeatModeOf s = MediaPlaybackAutoRepeatMode.None := by
    by_cases h1 : s = "none"
    · simp [repeatModeOf, h1]
    · simp [repeatModeOf, h1, h2, h3]
  have hnone : repeatModeOf ("none") = MediaPlaybackAutoRepeatMode.None := by decide
  refine ⟨hmode, ?_, hnone, by decide, by decide, by decide, by decide, by decide⟩
  unfold update_repeat_mode
  rw [hmode, hnone]

/-- Claim C6 witness: the theorem instantiated at the unrecognized input
`shuffle` in the all-success environment. -/
theorem c6_witness :
    repeatModeOf ("shuffle") = MediaPlaybackAutoRepeatMode.None ∧
    update_repeat_mode allOkEnv ("shuffle") = update_repeat_mode allOkEnv ("none") :=
  ⟨(c6_repeat_mode_mapping allOkEnv ("shuffle") (by decide) (by decide)).1,
   (c6_repeat_mode_mapping allOkEnv ("shuffle") (by decide) (by decide)).2.1⟩

/-- Claim C7: in the button-pressed handler, each of the ten named native
button identifiers causes exactly one emission of its fixed lowercase
snake-case token, and any other button identifier produces no emission on the
sink (the handler still acknowledges the callback with `Ok`). -/
theorem c7_button_mapping (b : SystemMediaTransportControlsButton)
    (hb : b ∉ [SystemMediaTransportControlsButton.Play,
      SystemMediaTransportControlsButton.Pause,
      SystemMediaTransportControlsButton.Stop,
      SystemMediaTransportControlsButton.Record,
      SystemMediaTransportControlsButton.FastForward,
      SystemMediaTransportControlsButton.Rewind,
      SystemMediaTransportControlsButton.Next,
      SystemMediaTransportControlsButton.Previous,
      SystemMediaTransportControlsButton.ChannelUp,
      SystemMediaTransportControlsButton.ChannelDown]) :
    button_press_handler (some ⟨some b⟩) = (.ok (), []) ∧
    button_press_handler (some ⟨some SystemMediaTransportControlsButton.Play⟩)
      = (.ok (), ["play"]) ∧
    button_press_handler (some ⟨some SystemMediaTransportControlsButton.Pause⟩)
      = (.ok (), ["pause"]) ∧
    button_press_handler (some ⟨some SystemMediaTransportControlsButton.Next⟩)
      = (.ok (), ["next"]) ∧
    button_press_handler (some ⟨some SystemMediaTransportControlsButton.Previous⟩)
      = (.ok (), ["previous"]) ∧
    button_press_handler (some ⟨some SystemMediaTransportControlsButton.FastForward⟩)
      = (.ok (), ["fast_forward"]) ∧
    button_press_handler (some ⟨some SystemMediaTransportControlsButton.Rewind⟩)
      = (.ok (), ["rewind"]) ∧
    button_press_handler (some ⟨some SystemMediaTransportControlsButton.Stop⟩)
      = (.ok (), ["stop"]) ∧
    button_press_handler (some ⟨some SystemMediaTransportControlsButton.Record⟩)
      = (.ok (), ["record"]) ∧
    button_press_handler (some ⟨some SystemMediaTransportControlsButton.ChannelUp⟩)
      = (.ok (), ["channel_up"]) ∧
    button_press_handler (some ⟨some SystemMediaTransportControlsButton.ChannelDown⟩)
      = (.ok (), ["channel_down"]) := by
  simp only [List.mem_cons, List.not_mem_nil, or_false, not_or] at hb
  obtain ⟨g1, g2, g3, g4, g5, g6, g7, g8, g9, g10⟩ := hb
  refine ⟨?_, by decide, by decide, by decide, by decide, by decide, by decide,
    by decide, by decide, by decide, by decide⟩
  simp [button_press_handler, buttonToken, g1, g2, g3, g4, g5, g6, g7, g8, g9, g10]

/-- Claim C7 witness: the theorem instantiated at the unmapped native button
code 10 (no named button carries it). -/
theorem c7_witness :
    button_press_handler (some ⟨some ⟨10⟩⟩) = (.ok (), []) ∧
    button_press_handler (some ⟨some SystemMediaTransportControlsButton.Play⟩)
      = (.ok (), ["play"]) :=
  ⟨(c7_button_mapping ⟨10⟩ (by decide)).1,
   (c7_button_mapping ⟨10⟩ (by decide)).2.1⟩

/-- Claim C5: for every `PlaybackTimeline` satisfying
`min_seek_ms ≤ position_ms ≤ max_seek_ms` the conversion succeeds,
round-trips the position and seek-range values exactly, and `update_timeline`
commits exactly those values; for every value violating the invariant the
conversion fails and `update_timeline` returns the error having attempted no
native write at all — no value is clamped. -/
theorem c5_timeline_roundtrip (env : NativeEnv) (t : PlaybackTimeline)
    (hs : env.smtcFails = false)
    (hw : ∀ tp, env.writeFails (WriteOp.updateTimelineProperties tp) = false) :
    ((t.min_seek_ms ≤ t.position_ms ∧ t.position_ms ≤ t.max_seek_ms) →
      toNativeTimeline t
        = .ok { position := t.position_ms, minSeekTime := t.min_seek_ms,
                maxSeekTime := t.max_seek_ms } ∧
      update_timeline env t
        = (.ok (), [WriteOp.updateTimelineProperties
            { position := t.position_ms, minSeekTime := t.min_seek_ms,
              maxSeekTime := t.max_seek_ms }])) ∧
    (¬(t.min_seek_ms ≤ t.position_ms ∧ t.position_ms ≤ t.max_seek_ms) →
      toNativeTimeline t = .error SmtcError.timelineInvariant ∧
      update_timeline env t = (.error SmtcError.timelineInvariant, [])) := by
  constructor
  · intro hinv
    have hconv : toNativeTimeline t
        = .ok { position := t.position_ms, minSeekTime := t.min_seek_ms,
                maxSeekTime := t.max_seek_ms } := by
      simp [toNativeTimeline, hinv]
    refine ⟨hconv, ?_⟩
    simp [update_timeline, hs, hconv, runWrites, hw]
  · intro hinv
    have hconv : toNativeTimeline t = .error SmtcError.timelineInvariant := by
      simp [toNativeTimeline, hinv]
    exact ⟨hconv, by simp [update_timeline, hs, hconv]⟩

/-- A timeline satisfying the seek-range invariant. -/
def tGood : PlaybackTimeline :=
  { position_ms := 5, min_seek_ms := 0, max_seek_ms := 10,
    min_playback_rate := 1, max_playback_rate := 1, last_updated_timestamp := 0 }

/-- A timeline violating the seek-range invariant (position past the range). -/
def tBad : PlaybackTimeline :=
  { position_ms := 20, min_seek_ms := 0, max_seek_ms := 10,
    min_playback_rate := 1, max_playback_rate := 1, last_updated_timestamp := 0 }

/-- Claim C5 witness: the theorem instantiated at a valid and at an invalid
concrete timeline in the all-success environment. -/
theorem c5_witness :
    toNativeTimeline tGood
      = .ok { position := 5, minSeekTime := 0, maxSeekTime := 10 } ∧
    update_timeline allOkEnv tGood
      = (.ok (), [WriteOp.updateTimelineProperties
          { position := 5, minSeekTime := 0, maxSeekTime := 10 }]) ∧
    toNativeTimeline tBad = .error SmtcError.timelineInvariant ∧
    update_timeline allOkEnv tBad = (.error SmtcError.timelineInvariant, []) := by
  have hg := (c5_timeline_roundtrip allOkEnv tGood rfl (fun _ => rfl)).1 (by decide)
  have hb := (c5_timeline_roundtrip allOkEnv tBad rfl (fun _ => rfl)).2 (by decide)
  exact ⟨hg.1, hg.2, hb.1, hb.2⟩

/-- Claim C8: `update_config` performs the seven capability writes in source
order (play, pause, next, previous, fast-forward, rewind, stop); when every
write succeeds each native flag reads back as the corresponding input flag,
and when a write fails the call returns exactly that first failure and
attempts none of the subsequent flag writes, with the earlier writes left in
place (no rollback). -/
theorem c8_update_config (env : NativeEnv) (c : SMTCConfig) (world : NativeWorld)
    (pre post : List WriteOp) (w : WriteOp)
    (hs : env.smtcFails = false) :
    ((∀ x ∈ configWrites c, env.writeFails x = false) →
      update_config env c = (.ok (), configWrites c) ∧
      (applyWrites world (configWrites c)).playEnabled = c.play_enabled ∧
      (applyWrites world (configWrites c)).pauseEnabled = c.pause_enabled ∧
      (applyWrites world (configWrites c)).nextEnabled = c.next_enabled ∧
      (applyWrites world (configWrites c)).prevEnabled = c.prev_enabled ∧
      (applyWrites world (configWrites c)).fastForwardEnabled = c.fast_forward_enabled ∧
      (applyWrites world (configWrites c)).rewindEnabled = c.rewind_enabled ∧
      (applyWrites world (configWrites c)).stopEnabled = c.stop_enabled) ∧
    (configWrites c = pre ++ w :: post →
      (∀ x ∈ pre, env.writeFails x = false) → env.writeFails w = true →
      update_config env c = (.error (SmtcError.writeFail w), pre ++ [w])) := by
  constructor
  · intro h
    refine ⟨by simp [update_config, hs, runWrites_ok env (configWrites c) h],
      ?_, ?_, ?_, ?_, ?_, ?_, ?_⟩ <;>
      simp [applyWrites, configWrites, applyWrite]
  · intro heq hpre hw
    simp [update_config, hs, heq, runWrites_firstFail env w post pre hpre hw]

/-- A concrete capability configuration for the C8 witness. -/
def cfgW : SMTCConfig :=
  { play_enabled := true, pause_enabled := false, next_enabled := true,
    prev_enabled := true, fast_forward_enabled := false, rewind_enabled := false,
    stop_enabled := true }

/-- Environment whose only failing native write is `SetIsNextEnabled(true)`. -/
def envC8 : NativeEnv :=
  { allOkEnv with writeFails := fun w => decide (w = WriteOp.setIsNextEnabled true) }

/-- Claim C8 witness: the theorem instantiated at a concrete configuration in
the all-success environment, and at an environment whose third flag write
fails, exhibiting the short-circuit after the first two writes. -/
theorem c8_witness :
    update_config allOkEnv cfgW = (.ok (), configWrites cfgW) ∧
    (applyWrites world0 (configWrites cfgW)).playEnabled = true ∧
    update_config envC8 cfgW
      = (.error (SmtcError.writeFail (WriteOp.setIsNextEnabled true)),
         [WriteOp.setIsPlayEnabled true, WriteOp.setIsPauseEnabled false,
          WriteOp.setIsNextEnabled true]) :=
  ⟨((c8_update_config allOkEnv cfgW world0 [] [] WriteOp.clearAll rfl).1 (by decide)).1,
   ((c8_update_config allOkEnv cfgW world0 [] [] WriteOp.clearAll rfl).1 (by decide)).2.1,
   (c8_update_config envC8 cfgW world0
      [WriteOp.setIsPlayEnabled true, WriteOp.setIsPauseEnabled false]
      [WriteOp.setIsPreviousEnabled true, WriteOp.setIsFastForwardEnabled false,
       WriteOp.setIsRewindEnabled false, WriteOp.setIsStopEnabled true]
      (WriteOp.setIsNextEnabled true) rfl).2 rfl (by decide) (by decide)⟩

/-- When the getters and the `?`-propagated writes of `update_metadata` all
succeed and the thumbnail resolves to `o`, the call returns `Ok` and attempts
exactly the clear, the optional app id write, the type write, the optional
field writes, the thumbnail write and the commit, in source order — with no
assumption at all on the discarded per-field write results. -/
theorem update_metadata_spec (env : NativeEnv) (meta : MusicMetadata)
    (app_id : Option String) (o : Option ThumbSource)
    (h1 : env.smtcFails = false) (h2 : env.displayUpdaterFails = false)
    (hca : env.writeFails WriteOp.clearAll = false)
    (hst : env.writeFails (WriteOp.setType MediaPlaybackType.music) = false)
    (h3 : env.musicPropertiesFails = false)
    (hres : resolveThumbnail env meta = .ok o)
    (hthw : env.writeFails (WriteOp.setThumbnail o) = false)
    (hup : env.writeFails WriteOp.displayUpdate = false) :
    update_metadata env meta app_id
      = (.ok (), WriteOp.clearAll :: (optFieldWrite app_id WriteOp.setAppMediaId
          ++ [WriteOp.setType MediaPlaybackType.music]
          ++ (optFieldWrite meta.h_artist WriteOp.setArtist
            ++ optFieldWrite meta.h_album WriteOp.setAlbumTitle
            ++ optFieldWrite meta.h_title WriteOp.setTitle
            ++ optFieldWrite meta.h_album_artist WriteOp.setAlbumArtist)
          ++ [WriteOp.setThumbnail o, WriteOp.displayUpdate])) := by
  simp [update_metadata, h1, h2, hca, hst, h3, hres, hthw, hup]

/-- Applying the successful `update_metadata` trace to any native state
publishes exactly the present fields and leaves every absent field cleared. -/
theorem metadata_publish_readback (world : NativeWorld) (meta : MusicMetadata)
    (app_id : Option String) (o : Option ThumbSource) :
    (applyWrites world (WriteOp.clearAll :: (optFieldWrite app_id WriteOp.setAppMediaId
      ++ [WriteOp.setType MediaPlaybackType.music]
      ++ (optFieldWrite meta.h_artist WriteOp.setArtist
        ++ optFieldWrite meta.h_album WriteOp.setAlbumTitle
        ++ optFieldWrite meta.h_title WriteOp.setTitle
        ++ optFieldWrite meta.h_album_artist WriteOp.setAlbumArtist)
      ++ [WriteOp.setThumbnail o, WriteOp.displayUpdate]))).published
      = { appMediaId := app_id, mediaType := some MediaPlaybackType.music,
          artist := meta.artist, album := meta.album, title := meta.title,
          albumArtist := meta.album_artist, thumbnail := o } := by
  obtain ⟨ti, ar, al, aa, th⟩ := meta
  cases app_id <;> cases ti <;> cases ar <;> cases al <;> cases aa <;>
    simp [applyWrites, applyWrite, optFieldWrite, MusicMetadata.h_artist,
      MusicMetadata.h_album, MusicMetadata.h_title, MusicMetadata.h_album_artist,
      emptyDisplay]

/-- Environment whose only failing native write is `SetArtist("a")`. -/
def envC4 : NativeEnv :=
  { allOkEnv with writeFails := fun w => decide (w = WriteOp.setArtist ("a")) }

/-- Metadata with artist and title present, used against `envC4`. -/
def metaC4 : MusicMetadata :=
  { title := some ("t"), artist := some ("a"), album := none, album_artist := none,
    thumbnail := none }

/-- Claim C4 counterexample: in an environment where the native
`SetArtist("a")` write fails, `update_metadata` still returns `Ok` and still
attempts the later `SetTitle` write and the final commit — the native write
error neither propagates to the caller nor short-circuits the remaining
writes, because the source discards the results of the per-field setters
inside `Option::map`. -/
theorem c4_counterexample :
    envC4.writeFails (WriteOp.setArtist ("a")) = true ∧
    (update_metadata envC4 metaC4 none).1 = .ok () ∧
    WriteOp.setTitle ("t") ∈ (update_metadata envC4 metaC4 none).2 ∧
    WriteOp.displayUpdate ∈ (update_metadata envC4 metaC4 none).2 :=
  ⟨by decide, by decide, by decide, by decide⟩

/-- Claim C4 (amended): `update_metadata` first clears all previously
published metadata, optionally sets the application identifier, sets the
media type to music, writes each present optional field, leaves each absent
optional field cleared, and commits; errors of the `?`-propagated native
calls (`ClearAll`, `SetType`, `SetThumbnail`, `Update` and the three getters)
propagate to the caller, the first of them short-circuiting the remaining
native writes of the call — but the results of the per-field writes (app id,
artist, album, title, album artist) are discarded, so their failures neither
propagate nor short-circuit.  Stated: under no assumption on the per-field
writes the call succeeds with the full source-ordered trace and the published
state reads back present fields set and absent fields cleared; and in any
environment whose first failing propagated call is the transport-controls
getter, the display-updater getter, `ClearAll`, `SetType`, the
music-properties getter, `SetThumbnail` or `Update` respectively, the call
returns exactly that failure with the attempted-write trace stopping at that
call — none of the subsequent native writes is attempted. -/
theorem c4_amended (env e1 e2 e3 e4 e5 e6 e7 : NativeEnv) (meta : MusicMetadata)
    (app_id : Option String) (o o6 o7 : Option ThumbSource) (world : NativeWorld)
    (h1 : env.smtcFails = false) (h2 : env.displayUpdaterFails = false)
    (hca : env.writeFails WriteOp.clearAll = false)
    (hst : env.writeFails (WriteOp.setType MediaPlaybackType.music) = false)
    (h3 : env.musicPropertiesFails = false)
    (hres : resolveThumbnail env meta = .ok o)
    (hthw : env.writeFails (WriteOp.setThumbnail o) = false)
    (hup : env.writeFails WriteOp.displayUpdate = false)
    (a1 : e1.smtcFails = true)
    (b1 : e2.smtcFails = false) (b2 : e2.displayUpdaterFails = true)
    (c1 : e3.smtcFails = false) (c2 : e3.displayUpdaterFails = false)
    (c3 : e3.writeFails WriteOp.clearAll = true)
    (d1 : e4.smtcFails = false) (d2 : e4.displayUpdaterFails = false)
    (d3 : e4.writeFails WriteOp.clearAll = false)
    (d4 : e4.writeFails (WriteOp.setType MediaPlaybackType.music) = true)
    (f1 : e5.smtcFails = false) (f2 : e5.displayUpdaterFails = false)
    (f3 : e5.writeFails WriteOp.clearAll = false)
    (f4 : e5.writeFails (WriteOp.setType MediaPlaybackType.music) = false)
    (f5 : e5.musicPropertiesFails = true)
    (g1 : e6.smtcFails = false) (g2 : e6.displayUpdaterFails = false)
    (g3 : e6.writeFails WriteOp.clearAll = false)
    (g4 : e6.writeFails (WriteOp.setType MediaPlaybackType.music) = false)
    (g5 : e6.musicPropertiesFails = false)
    (g6 : resolveThumbnail e6 meta = .ok o6)
    (g7 : e6.writeFails (WriteOp.setThumbnail o6) = true)
    (k1 : e7.smtcFails = false) (k2 : e7.displayUpdaterFails = false)
    (k3 : e7.writeFails WriteOp.clearAll = false)
    (k4 : e7.writeFails (WriteOp.setType MediaPlaybackType.music) = false)
    (k5 : e7.musicPropertiesFails = false)
    (k6 : resolveThumbnail e7 meta = .ok o7)
    (k7 : e7.writeFails (WriteOp.setThumbnail o7) = false)
    (k8 : e7.writeFails WriteOp.displayUpdate = true) :
    update_metadata env meta app_id
      = (.ok (), WriteOp.clearAll :: (optFieldWrite app_id WriteOp.setAppMediaId
          ++ [WriteOp.setType MediaPlaybackType.music]
          ++ (optFieldWrite meta.h_artist WriteOp.setArtist
            ++ optFieldWrite meta.h_album WriteOp.setAlbumTitle
            ++ optFieldWrite meta.h_title WriteOp.setTitle
            ++ optFieldWrite meta.h_album_artist WriteOp.setAlbumArtist)
          ++ [WriteOp.setThumbnail o, WriteOp.displayUpdate])) ∧
    (applyWrites world (update_metadata env meta app_id).2).published
      = { appMediaId := app_id, mediaType := some MediaPlaybackType.music,
          artist := meta.artist, album := meta.album, title := meta.title,
          albumArtist := meta.album_artist, thumbnail := o } ∧
    update_metadata e1 meta app_id
      = (.error (SmtcError.getterFail NativeGetter.systemMediaTransportControls), []) ∧
    update_metadata e2 meta app_id
      = (.error (SmtcError.getterFail NativeGetter.displayUpdater), []) ∧
    update_metadata e3 meta app_id
      = (.error (SmtcError.writeFail WriteOp.clearAll), [WriteOp.clearAll]) ∧
    update_metadata e4 meta app_id
      = (.error (SmtcError.writeFail (WriteOp.setType MediaPlaybackType.music)),
         WriteOp.clearAll :: (optFieldWrite app_id WriteOp.setAppMediaId
           ++ [WriteOp.setType MediaPlaybackType.music])) ∧
    update_metadata e5 meta app_id
      = (.error (SmtcError.getterFail NativeGetter.musicProperties),
         WriteOp.clearAll :: (optFieldWrite app_id WriteOp.setAppMediaId
           ++ [WriteOp.setType MediaPlaybackType.music])) ∧
    update_metadata e6 meta app_id
      = (.error (SmtcError.writeFail (WriteOp.setThumbnail o6)),
         WriteOp.clearAll :: (optFieldWrite app_id WriteOp.setAppMediaId
           ++ [WriteOp.setType MediaPlaybackType.music]
           ++ (optFieldWrite meta.h_artist WriteOp.setArtist
             ++ optFieldWrite meta.h_album WriteOp.setAlbumTitle
             ++ optFieldWrite meta.h_title WriteOp.setTitle
             ++ optFieldWrite meta.h_album_artist WriteOp.setAlbumArtist)
           ++ [WriteOp.setThumbnail o6])) ∧
    update_metadata e7 meta app_id
      = (.error (SmtcError.writeFail WriteOp.displayUpdate),
         WriteOp.clearAll :: (optFieldWrite app_id WriteOp.setAppMediaId
           ++ [WriteOp.setType MediaPlaybackType.music]
           ++ (optFieldWrite meta.h_artist WriteOp.setArtist
             ++ optFieldWrite meta.h_album WriteOp.setAlbumTitle
             ++ optFieldWrite meta.h_title WriteOp.setTitle
             ++ optFieldWrite meta.h_album_artist WriteOp.setAlbumArtist)
           ++ [WriteOp.setThumbnail o7, WriteOp.displayUpdate])) := by
  have hspec := update_metadata_spec env meta app_id o h1 h2 hca hst h3 hres hthw hup
  refine ⟨hspec, ?_, ?_, ?_, ?_, ?_, ?_, ?_, ?_⟩
  · simp only [hspec]
    exact metadata_publish_readback world meta app_id o
  · simp [update_metadata, a1]
  · simp [update_metadata, b1, b2]
  · simp [update_metadata, c1, c2, c3]
  · simp [update_metadata, d1, d2, d3, d4]
  · simp [update_metadata, f1, f2, f3, f4, f5]
  · simp [update_metadata, g1, g2, g3, g4, g5, g6, g7]
  · simp [update_metadata, k1, k2, k3, k4, k5, k6, k7, k8]

/-- Metadata with artist and title present and the rest absent, for the C4
witness. -/
def metaW : MusicMetadata :=
  { title := some ("ti"), artist := some ("ar"), album := none, album_artist := none,
    thumbnail := none }

/-- Environment whose transport-controls getter fails. -/
def envSM : NativeEnv :=
  { allOkEnv with smtcFails := true }

/-- Environment whose display-updater getter fails. -/
def envDU : NativeEnv :=
  { allOkEnv with displayUpdaterFails := true }

/-- Environment whose only failing native write is `ClearAll`. -/
def envCA : NativeEnv :=
  { allOkEnv with writeFails := fun w => decide (w = WriteOp.clearAll) }

/-- Environment whose only failing native write is `SetType(Music)`. -/
def envST : NativeEnv :=
  { allOkEnv with writeFails :=
      fun w => decide (w = WriteOp.setType MediaPlaybackType.music) }

/-- Environment whose music-properties getter fails. -/
def envMP : NativeEnv :=
  { allOkEnv with musicPropertiesFails := true }

/-- Environment whose only failing native write is `SetThumbnail(None)`. -/
def envTH : NativeEnv :=
  { allOkEnv with writeFails := fun w => decide (w = WriteOp.setThumbnail none) }

/-- Environment whose only failing native write is the `Update` commit. -/
def envUP : NativeEnv :=
  { allOkEnv with writeFails := fun w => decide (w = WriteOp.displayUpdate) }

/-- Claim C4 witness: the amended theorem instantiated at concrete metadata,
app id and initial native state, in the all-success environment and in seven
environments failing respectively at each propagated native call. -/
theorem c4_amended_witness :
    update_metadata allOkEnv metaW (some ("app"))
      = (.ok (), WriteOp.clearAll :: (optFieldWrite (some ("app")) WriteOp.setAppMediaId
          ++ [WriteOp.setType MediaPlaybackType.music]
          ++ (optFieldWrite metaW.h_artist WriteOp.setArtist
            ++ optFieldWrite metaW.h_album WriteOp.setAlbumTitle
            ++ optFieldWrite metaW.h_title WriteOp.setTitle
            ++ optFieldWrite metaW.h_album_artist WriteOp.setAlbumArtist)
          ++ [WriteOp.setThumbnail none, WriteOp.displayUpdate])) ∧
    (applyWrites world0 (update_metadata allOkEnv metaW (some ("app"))).2).published
      = { appMediaId := some ("app"), mediaType := some MediaPlaybackType.music,
          artist := some ("ar"), album := none, title := some ("ti"),
          albumArtist := none, thumbnail := none } ∧
    update_metadata envSM metaW (some ("app"))
      = (.error (SmtcError.getterFail NativeGetter.systemMediaTransportControls), []) ∧
    update_metadata envDU metaW (some ("app"))
      = (.error (SmtcError.getterFail NativeGetter.displayUpdater), []) ∧
    update_metadata envCA metaW (some ("app"))
      = (.error (SmtcError.writeFail WriteOp.clearAll), [WriteOp.clearAll]) ∧
    update_metadata envST metaW (some ("app"))
      = (.error (SmtcError.writeFail (WriteOp.setType MediaPlaybackType.music)),
         WriteOp.clearAll :: (optFieldWrite (some ("app")) WriteOp.setAppMediaId
           ++ [WriteOp.setType MediaPlaybackType.music])) ∧
    update_metadata envMP metaW (some ("app"))
      = (.error (SmtcError.getterFail NativeGetter.musicProperties),
         WriteOp.clearAll :: (optFieldWrite (some ("app")) WriteOp.setAppMediaId
           ++ [WriteOp.setType MediaPlaybackType.music])) ∧
    update_metadata envTH metaW (some ("app"))
      = (.error (SmtcError.writeFail (WriteOp.setThumbnail none)),
         WriteOp.clearAll :: (optFieldWrite (some ("app")) WriteOp.setAppMediaId
           ++ [WriteOp.setType MediaPlaybackType.music]
           ++ (optFieldWrite metaW.h_artist WriteOp.setArtist
             ++ optFieldWrite metaW.h_album WriteOp.setAlbumTitle
             ++ optFieldWrite metaW.h_title WriteOp.setTitle
             ++ optFieldWrite metaW.h_album_artist WriteOp.setAlbumArtist)
           ++ [WriteOp.setThumbnail none])) ∧
    update_metadata envUP metaW (some ("app"))
      = (.error (SmtcError.writeFail WriteOp.displayUpdate),
         WriteOp.clearAll :: (optFieldWrite (some ("app")) WriteOp.setAppMediaId
           ++ [WriteOp.setType MediaPlaybackType.music]
           ++ (optFieldWrite metaW.h_artist WriteOp.setArtist
             ++ optFieldWrite metaW.h_album WriteOp.setAlbumTitle
             ++ optFieldWrite metaW.h_title WriteOp.setTitle
             ++ optFieldWrite metaW.h_album_artist WriteOp.setAlbumArtist)
           ++ [WriteOp.setThumbnail none, WriteOp.displayUpdate])) :=
  c4_amended allOkEnv envSM envDU envCA envST envMP envTH envUP metaW
    (some ("app")) none none none world0
    rfl rfl rfl rfl rfl rfl rfl rfl
    rfl
    rfl rfl
    rfl rfl (by decide)
    rfl rfl (by decide) (by decide)
    rfl rfl (by decide) (by decide) rfl
    rfl rfl (by decide) (by decide) rfl rfl (by decide)
    rfl rfl (by decide) (by decide) rfl rfl (by decide) (by decide)


/-- Environment in which every `Uri::CreateUri` construction fails. -/
def envC2 : NativeEnv :=
  { allOkEnv with createUriFails := fun _ => true }

/-- Metadata whose thumbnail reference begins with `http` but is not a valid
URI (so the native `CreateUri` constructor fails on it). -/
def metaC2 : MusicMetadata :=
  { title := none, artist := none, album := none, album_artist := none,
    thumbnail := some ("httpq") }

/-- Claim C2 counterexample: for a thumbnail reference beginning with `http`
on which the native URI construction fails, the resolver panics — the source
calls `Uri::CreateUri(..).unwrap()` — and the panic reaches the caller of
`update_metadata`, instead of the failure being treated as a resolution
failure yielding `None`. -/
theorem c2_counterexample :
    strStartsWithHttp metaC2.h_thumbnail_raw = true ∧
    resolveThumbnail envC2 metaC2 = .panicked ∧
    (update_metadata envC2 metaC2 none).1 = .panicked :=
  ⟨by decide, by decide, by decide⟩

/-- Claim C2 (amended): for every metadata value whose thumbnail reference
begins with `http`, the resolver takes the URL path — when the native URI and
stream-reference constructions succeed it produces the stream reference bound
to that URI — but a failure in either construction panics (uncaught `unwrap`)
and the panic propagates to the caller of `update_metadata`, rather than
being treated as a resolution failure yielding `None`. -/
theorem c2_amended (env : NativeEnv) (meta : MusicMetadata)
    (app_id : Option String) (s : String)
    (hth : meta.thumbnail = some s)
    (hpre : strStartsWithHttp s = true) :
    (env.createUriFails s = false → env.createFromUriFails s = false →
      resolveThumbnail env meta = .ok (some (ThumbSource.fromUri s))) ∧
    (env.createUriFails s = true ∨ env.createFromUriFails s = true →
      resolveThumbnail env meta = .panicked) ∧
    (env.createUriFails s = true → env.smtcFails = false →
      env.displayUpdaterFails = false → env.writeFails WriteOp.clearAll = false →
      env.writeFails (WriteOp.setType MediaPlaybackType.music) = false →
      env.musicPropertiesFails = false →
      (update_metadata env meta app_id).1 = .panicked) := by
  have hraw : meta.h_thumbnail_raw = s := by
    simp [MusicMetadata.h_thumbnail_raw, hth]
  refine ⟨?_, ?_, ?_⟩
  · intro hu hf
    simp [resolveThumbnail, MusicMetadata.h_thumbnail, hth, hraw, hpre, hu, hf]
  · intro hor
    rcases hor with hu | hf
    · simp [resolveThumbnail, MusicMetadata.h_thumbnail, hth, hraw, hpre, hu]
    · cases hu : env.createUriFails s <;>
        simp [resolveThumbnail, MusicMetadata.h_thumbnail, hth, hraw, hpre, hu, hf]
  · intro hu h1 h2 hca hst h3
    have hres : resolveThumbnail env meta = .panicked := by
      simp [resolveThumbnail, MusicMetadata.h_thumbnail, hth, hraw, hpre, hu]
    simp [update_metadata, h1, h2, hca, hst, h3, hres]

/-- Claim C2 witness: the amended theorem instantiated at the concrete
reference `httpq`, in the environment where URI construction fails and in the
all-success environment. -/
theorem c2_witness :
    resolveThumbnail envC2 metaC2 = .panicked ∧
    resolveThumbnail allOkEnv metaC2 = .ok (some (ThumbSource.fromUri ("httpq"))) ∧
    (update_metadata envC2 metaC2 none).1 = .panicked :=
  ⟨(c2_amended envC2 metaC2 none ("httpq") rfl (by decide)).2.1 (Or.inl (by decide)),
   (c2_amended allOkEnv metaC2 none ("httpq") rfl (by decide)).1 rfl rfl,
   (c2_amended envC2 metaC2 none ("httpq") rfl (by decide)).2.2
     (by decide) rfl rfl rfl rfl rfl⟩

/-- Environment in which every blocking native file lookup fails. -/
def envC9 : NativeEnv :=
  { allOkEnv with getFileFails := fun _ => true }

/-- Metadata with a local-path thumbnail reference and two present fields. -/
def meta9 : MusicMetadata :=
  { title := some ("song"), artist := some ("performer"), album := none,
    album_artist := none, thumbnail := some ("cover.png") }

/-- Claim C9: for every metadata value whose thumbnail reference does not
begin with `http`, the resolver takes the local-file path (the blocking
`get_storage_file_sync` lookup), and when that lookup fails the resolution
yields `None` without surfacing an error: `update_metadata` still returns
`Ok`, still writes the cleared thumbnail (`SetThumbnail(None)`), still
commits, and the remaining metadata fields are published. -/
theorem c9_local_thumbnail (env : NativeEnv) (meta : MusicMetadata)
    (app_id : Option String) (s : String) (world : NativeWorld)
    (hth : meta.thumbnail = some s)
    (hpre : strStartsWithHttp s = false)
    (hfile : env.getFileFails s = true)
    (h1 : env.smtcFails = false) (h2 : env.displayUpdaterFails = false)
    (hca : env.writeFails WriteOp.clearAll = false)
    (hst : env.writeFails (WriteOp.setType MediaPlaybackType.music) = false)
    (h3 : env.musicPropertiesFails = false)
    (hthw : env.writeFails (WriteOp.setThumbnail none) = false)
    (hup : env.writeFails WriteOp.displayUpdate = false) :
    resolveThumbnail env meta = .ok none ∧
    (update_metadata env meta app_id).1 = .ok () ∧
    WriteOp.setThumbnail none ∈ (update_metadata env meta app_id).2 ∧
    WriteOp.displayUpdate ∈ (update_metadata env meta app_id).2 ∧
    (applyWrites world (update_metadata env meta app_id).2).published.thumbnail
      = none ∧
    (applyWrites world (update_metadata env meta app_id).2).published.title
      = meta.title ∧
    (applyWrites world (update_metadata env meta app_id).2).published.artist
      = meta.artist := by
  have hraw : meta.h_thumbnail_raw = s := by
    simp [MusicMetadata.h_thumbnail_raw, hth]
  have hres : resolveThumbnail env meta = .ok none := by
    simp [resolveThumbnail, MusicMetadata.h_thumbnail, hth, hraw, hpre, hfile]
  have hspec := update_metadata_spec env meta app_id none h1 h2 hca hst h3 hres hthw hup
  have hread := metadata_publish_readback world meta app_id none
  refine ⟨hres, ?_, ?_, ?_, ?_, ?_, ?_⟩
  · rw [hspec]
  · rw [hspec]; simp
  · rw [hspec]; simp
  · rw [hspec]; exact congrArg DisplayState.thumbnail hread
  · rw [hspec]; exact congrArg DisplayState.title hread
  · rw [hspec]; exact congrArg DisplayState.artist hread

/-- Claim C9 witness: the theorem instantiated at the concrete local
reference `cover.png` in the environment where every file lookup fails. -/
theorem c9_witness :
    resolveThumbnail envC9 meta9 = .ok none ∧
    (update_metadata envC9 meta9 none).1 = .ok () ∧
    WriteOp.setThumbnail none ∈ (update_metadata envC9 meta9 none).2 ∧
    WriteOp.displayUpdate ∈ (update_metadata envC9 meta9 none).2 ∧
    (applyWrites world0 (update_metadata envC9 meta9 none).2).published.thumbnail
      = none ∧
    (applyWrites world0 (update_metadata envC9 meta9 none).2).published.title
      = some ("song") ∧
    (applyWrites world0 (update_metadata envC9 meta9 none).2).published.artist
      = some ("performer") :=
  c9_local_thumbnail envC9 meta9 none ("cover.png") world0
    rfl (by decide) rfl rfl rfl rfl rfl rfl rfl rfl
